import Mathlib

/-!
Shallow embedding of `src/asyncschwab/client.py` (class `Client`):
construction-time validation (`__init__`), the background token-checker loop
(`checker`), the scoped-lifetime teardown (`__aenter__`/`__aexit__`), and the
pure helpers `_params_parser`, `_time_convert`, `_format_list`.
-/

namespace AsyncSchwab

/-- Python exceptions that the embedded code can raise. -/
inductive PyErr where
  | timeoutError    -- the Exception raised by __init__ for timeout <= 0 (line 32)
  | attributeError  -- attribute lookup failure (self.use_session is never assigned)
  | tokensError     -- an exception raised inside tokens.update_tokens()
  | exceptionGroup  -- the BaseExceptionGroup raised by asyncio.TaskGroup.__aexit__
                    -- (wrapping a failed child task and/or a propagating scope exception)
deriving DecidableEq, Repr

/-- Allocation effects performed by the client: `aiohttp.ClientSession()`
constructions are numbered `1, 2, ...` by `sessionsOpened`; `tokensBuilt` and
`streamsBuilt` count `Tokens(...)` and `Stream(...)` constructions; explicit
session `.close()` calls are recorded in `closedSessions`. -/
structure World where
  sessionsOpened : Nat
  tokensBuilt : Nat
  streamsBuilt : Nat
  closedSessions : List Nat
deriving DecidableEq, Repr

/-- A world in which nothing has been allocated yet. -/
def World.start : World := ⟨0, 0, 0, []⟩

/-- Attributes of a `Client` instance relevant to the embedded methods.
`curSession` is `self._session`: `some id` for an owned
`aiohttp.ClientSession`, `none` for the bare `aiohttp.request` function (the
`use_session=False` case, which owns no closable session).  `useSessionAttr`
is the value of the attribute `self.use_session` if it has ever been assigned;
`__init__` (lines 31-41) never assigns it.  `self.version` and `self.logger`
are claim-irrelevant constants and are omitted. -/
structure ClientState where
  timeout : ℚ
  curSession : Option Nat
  useSessionAttr : Option Bool
deriving DecidableEq, Repr

/-- Embedding of `Client.__init__` (client.py lines 31-41).  The `timeout <= 0`
check (line 31) runs before any resource is allocated; afterwards line 37
builds the session (an owned `ClientSession` only when `use_session`), line 38
builds the `Tokens` object and line 39 the `Stream` object.  No statement
assigns `self.use_session`. -/
def clientInit (timeout : ℚ) (use_session : Bool) (w : World) :
    Except PyErr ClientState × World :=
  if timeout ≤ 0 then (Except.error PyErr.timeoutError, w)
  else
    let w1 := if use_session then { w with sessionsOpened := w.sessionsOpened + 1 } else w
    let sess : Option Nat := if use_session then some w1.sessionsOpened else none
    let w2 := { w1 with tokensBuilt := w1.tokensBuilt + 1 }
    let w3 := { w2 with streamsBuilt := w2.streamsBuilt + 1 }
    (Except.ok { timeout := timeout, curSession := sess, useSessionAttr := none }, w3)

/-- Modelled from the spec: the Credential Store collaborator (`self.tokens`,
class `Tokens`, whose source is not present under `src/`) exposes
`update_tokens() -> bool` (spec 4.1, `refresh_if_needed`): it reports whether
a rotation occurred, and a failed rotation may surface as a raised exception;
it does not write attributes on the client.  One value describes the outcome
of one call. -/
inductive RefreshOutcome where
  | ret (b : Bool)
  | raise
deriving DecidableEq, Repr

/-- What happens at one execution of `await asyncio.sleep(30)` (line 49):
either the interval elapses, or a pending `cancel()` delivers
`CancelledError` there.  The sleep is the only suspension point of
`Client.checker`, so cancellation is observable only at it. -/
inductive SleepSignal where
  | elapse
  | cancel
deriving DecidableEq, Repr

/-- Observable events of a run of `Client.checker`. -/
inductive Event where
  | refreshCall         -- the call self.tokens.update_tokens() (line 47)
  | rotate (newId : Nat)  -- self._session = aiohttp.ClientSession() (line 48)
  | sleep30             -- await asyncio.sleep(30) completed (line 49)
deriving DecidableEq, Repr

/-- How a (finite prefix of a) run of `Client.checker` ended. -/
inductive RunStatus where
  | suspended            -- the schedule ran out with the loop still alive
  | errored (e : PyErr)  -- the body raised; the exception escapes the coroutine
  | cancelled            -- CancelledError delivered during the sleep
deriving DecidableEq, Repr

/-- Result of running `Client.checker` under a finite schedule. -/
structure RunResult where
  state : ClientState
  world : World
  events : List Event
  status : RunStatus
deriving DecidableEq, Repr

/-- Embedding of `Client.checker` (client.py lines 45-49) run under a finite
schedule: the n-th schedule entry supplies the outcome of the n-th
`update_tokens()` call and what happens at the following sleep.  Line 47
first calls `update_tokens()`; only when it returns `True` does the `and`
evaluate `self.use_session`, which raises `AttributeError` when that
attribute was never assigned; when both are truthy, line 48 publishes a
fresh session (the old one is merely replaced, never closed).  Line 49 then
sleeps.  An exception anywhere in the body escapes the coroutine (there is
no try/except in `checker`). -/
def checkerRun : List (RefreshOutcome × SleepSignal) → ClientState → World → RunResult
  | [], s, w => ⟨s, w, [], RunStatus.suspended⟩
  | (o, sig) :: rest, s, w =>
    let body : Except PyErr (ClientState × World × List Event) :=
      match o with
      | RefreshOutcome.raise => Except.error PyErr.tokensError
      | RefreshOutcome.ret b =>
        if b then
          match s.useSessionAttr with
          | none => Except.error PyErr.attributeError
          | some u =>
            if u then
              let newId := w.sessionsOpened + 1
              Except.ok ({ s with curSession := some newId },
                { w with sessionsOpened := newId },
                [Event.refreshCall, Event.rotate newId])
            else Except.ok (s, w, [Event.refreshCall])
        else Except.ok (s, w, [Event.refreshCall])
    match body with
    | Except.error e => ⟨s, w, [Event.refreshCall], RunStatus.errored e⟩
    | Except.ok (s', w', evs) =>
      match sig with
      | SleepSignal.cancel => ⟨s', w', evs, RunStatus.cancelled⟩
      | SleepSignal.elapse =>
        let r := checkerRun rest s' w'
        ⟨r.state, r.world, evs ++ Event.sleep30 :: r.events, r.status⟩

/-- Number of `update_tokens()` calls recorded in an event trace. -/
def refreshCalls (evs : List Event) : Nat :=
  (evs.filter fun e => match e with | Event.refreshCall => true | _ => false).length

/-- Number of session rotations recorded in an event trace. -/
def rotations (evs : List Event) : Nat :=
  (evs.filter fun e => match e with | Event.rotate _ => true | _ => false).length

/-- Whether `await self._task_group.__aexit__(...)` (line 59) raises, given
how the checker task stands and whether an exception is propagating out of
the scope body.  asyncio's `TaskGroup.__aexit__` raises a
`BaseExceptionGroup` when a child task finished with a non-cancellation
exception, and also when a propagating scope-body exception was handed to it
even though no child failed - the propagating exception is wrapped into the
group it raises (a bare propagating `CancelledError` is re-raised as such;
either way the statement after the await is skipped).  A still-pending child
is cancelled (line 58 already requested that) and awaited, and its
`CancelledError` alone is not an error. -/
def taskGroupRaises (supStatus : RunStatus) (scopeErr : Bool) : Bool :=
  match supStatus with
  | RunStatus.errored _ => true
  | _ => scopeErr

/-- Outcome of `Client.__aexit__`: whether line 58 signalled cancellation, the
world after teardown (recording any session close), the exception escaping
`__aexit__` if any, and whether the return value suppresses an exception
propagating through the scope (`TaskGroup.__aexit__` returns `None`, so it
never does). -/
structure ExitResult where
  cancelSignalled : Bool
  world : World
  raised : Option PyErr
  suppresses : Bool
deriving DecidableEq, Repr

/-- Embedding of `Client.__aexit__` (client.py lines 57-61).  `supStatus` is
how the checker task stands when exit begins; `scopeErr` records whether an
exception is propagating out of the scope body (Python hands it to
`__aexit__` and on to `TaskGroup.__aexit__`).  Line 58 cancels the checker;
line 59 awaits the task group - the children are awaited in every case - and
raises iff the checker task failed or a scope-body exception is propagating
(see `taskGroupRaises`); line 60 closes `self._session` - skipped whenever
line 59 raised, and an `AttributeError` when `self._session` is the bare
`aiohttp.request` function; line 61 returns the group's `None`, which never
suppresses a propagating exception. -/
def clientAexit (supStatus : RunStatus) (scopeErr : Bool) (s : ClientState)
    (w : World) : ExitResult :=
  if taskGroupRaises supStatus scopeErr then
    { cancelSignalled := true, world := w
    , raised := some PyErr.exceptionGroup, suppresses := false }
  else
    match s.curSession with
    | some i =>
      { cancelSignalled := true
      , world := { w with closedSessions := i :: w.closedSessions }
      , raised := none, suppresses := false }
    | none =>
      { cancelSignalled := true, world := w
      , raised := some PyErr.attributeError, suppresses := false }

/-- Python dict lookup `d[k]` on an insertion-ordered association list: the
first entry with key `k` (dict keys are unique, see the Nodup hypotheses). -/
def pyLookup {K V : Type} [DecidableEq K] (d : List (K × V)) (k : K) : Option V :=
  match d with
  | [] => none
  | kv :: t => if kv.1 = k then some kv.2 else pyLookup t k

/-- Python `del d[k]`: removes the entry with key `k`. -/
def pyDelKey {K V : Type} [DecidableEq K] (d : List (K × V)) (k : K) : List (K × V) :=
  d.filter fun kv => decide (kv.1 ≠ k)

/-- The test `params[key] is None`: the lookup found an entry and its value is
the Python `None` (modelled as `Option.none`; `is None` is an identity check,
so it needs no equality on the payload type). -/
def isPyNone {V : Type} : Option (Option V) → Bool
  | some none => true
  | _ => false

/-- The loop of `_params_parser` (lines 79-80): iterate over a snapshot of the
keys and delete every key whose current value is the Python `None`. -/
def paramsLoop {K V : Type} [DecidableEq K] (ks : List K)
    (d : List (K × Option V)) : List (K × Option V) :=
  match ks with
  | [] => d
  | k :: ks => paramsLoop ks (if isPyNone (pyLookup d k) then pyDelKey d k else d)

/-- Embedding of `Client._params_parser` (client.py lines 64-81) acting on the
dict value: for each key in a snapshot of the keys, the entry is deleted if
its value is `None`, and the dict is returned.  A dict is an
insertion-ordered association list whose values are `Option V` (`none` being
the Python `None`). -/
def paramsParser {K V : Type} [DecidableEq K] (d : List (K × Option V)) :
    List (K × Option V) :=
  paramsLoop (d.map Prod.fst) d

/-- The same operation at the level of object identity: the heap maps dict
references to dict values; `_params_parser` mutates the dict behind `r` in
place and returns that same reference `r`. -/
def paramsParserRef {K V : Type} [DecidableEq K]
    (h : Nat → List (K × Option V)) (r : Nat) :
    (Nat → List (K × Option V)) × Nat :=
  (Function.update h r (paramsParser (h r)), r)

/-- The string surgery of the `"8601"` branch (line 97): take the text before
the first plus sign of `dt.isoformat()`, drop the last three characters,
append a `Z`. -/
def iso8601Trim (s : String) : String :=
  let first := (s.splitOn "+").headD ""
  (first.take (first.length - 3)) ++ "Z"

/-- The data `_time_convert` reads off a `datetime.datetime` argument.  The
floating-point arithmetic of `dt.timestamp()` is abstracted by its two
truncated integer results. -/
structure PyDatetime where
  isoformatStr : String  -- dt.isoformat()
  epochSec : Int         -- int(dt.timestamp())
  epochMs : Int          -- int(dt.timestamp() * 1000)
  ymdStr : String        -- dt.strftime with the year-month-day format
deriving DecidableEq, Repr

/-- Python values that can be passed to (and returned from) `_time_convert`:
`None`, a string, an int, or a `datetime.datetime`. -/
inductive TimeArg where
  | pynone
  | pystr (s : String)
  | pyint (n : Int)
  | pydt (d : PyDatetime)
deriving DecidableEq, Repr

/-- Embedding of `Client._time_convert` (client.py lines 83-105): `None` and
non-datetime arguments pass through unchanged (line 94); a datetime is
converted according to `form`, and unrecognized formats pass the datetime
through (line 105). -/
def timeConvert (dt : TimeArg) (form : String) : TimeArg :=
  match dt with
  | TimeArg.pydt d =>
    if form = "8601" then TimeArg.pystr (iso8601Trim d.isoformatStr)
    else if form = "epoch" then TimeArg.pyint d.epochSec
    else if form = "epoch_ms" then TimeArg.pyint d.epochMs
    else if form = "YYYY-MM-DD" then TimeArg.pystr d.ymdStr
    else TimeArg.pydt d
  | x => x

/-- Python values passable to `_format_list`: `None`, a list of strings, a
string, or any other object (indexed opaquely). -/
inductive FmtArg where
  | pynone
  | pylist (xs : List String)
  | pystr (s : String)
  | pyother (t : Nat)
deriving DecidableEq, Repr

/-- Embedding of `Client._format_list` (client.py lines 107-127): `None`
passes through, a list is joined with commas, anything else is returned
unchanged. -/
def formatList : FmtArg → FmtArg
  | FmtArg.pynone => FmtArg.pynone
  | FmtArg.pylist xs => FmtArg.pystr (String.intercalate "," xs)
  | x => x

/-! Helper lemmas. -/

/-- With unique keys, membership determines the dict lookup. -/
theorem pyLookup_of_mem {K V : Type} [DecidableEq K] {d : List (K × V)}
    (hnd : (d.map Prod.fst).Nodup) {a : K} {v : V} (hm : (a, v) ∈ d) :
    pyLookup d a = some v := by
  induction d with
  | nil => cases hm
  | cons hd t ih =>
    rw [List.map_cons, List.nodup_cons] at hnd
    rcases List.mem_cons.mp hm with h1 | h2
    · rw [← h1]
      simp [pyLookup]
    · have hne : hd.1 ≠ a := by
        intro he
        exact hnd.1 (he ▸ List.mem_map_of_mem Prod.fst h2)
      simp only [pyLookup, if_neg hne]
      exact ih hnd.2 h2

/-- The `is None` test succeeds exactly on a present `None` value. -/
theorem isPyNone_iff {V : Type} {x : Option (Option V)} :
    isPyNone x = true ↔ x = some none := by
  cases x with
  | none => simp [isPyNone]
  | some v => cases v <;> simp [isPyNone]

/-- The snapshot loop of `_params_parser` filters out exactly the entries
whose value is `None`, provided the dict keys are unique (a dict invariant)
and every key is considered. -/
theorem paramsLoop_eq_filter {K V : Type} [DecidableEq K] (ks : List K) :
    ∀ d : List (K × Option V), (d.map Prod.fst).Nodup →
      paramsLoop ks d
        = d.filter fun kv => !(decide (kv.1 ∈ ks) && kv.2.isNone) := by
  induction ks with
  | nil =>
    intro d _
    simp [paramsLoop]
  | cons k ks ih =>
    intro d hnd
    simp only [paramsLoop]
    by_cases hk : isPyNone (pyLookup d k) = true
    · rw [if_pos hk]
      have hk' : pyLookup d k = some none := isPyNone_iff.mp hk
      have hnd' : ((pyDelKey d k).map Prod.fst).Nodup :=
        List.Nodup.sublist ((List.filter_sublist d).map Prod.fst) hnd
      rw [ih _ hnd']
      unfold pyDelKey
      rw [List.filter_filter]
      apply List.filter_congr
      intro kv hkv
      have hfact : kv.1 = k → kv.2 = none := by
        intro he
        have h2 : (kv.1, kv.2) ∈ d := by simpa using hkv
        have h3 := pyLookup_of_mem hnd h2
        rw [he, hk'] at h3
        exact (Option.some.inj h3).symm
      by_cases he : kv.1 = k
      · have h2 := hfact he
        simp [he, h2]
      · simp [he]
    · rw [if_neg hk]
      rw [ih _ hnd]
      apply List.filter_congr
      intro kv hkv
      have hfact : kv.1 = k → kv.2 ≠ none := by
        intro he hn
        apply hk
        rw [isPyNone_iff]
        have h2 : (kv.1, kv.2) ∈ d := by simpa using hkv
        have h3 := pyLookup_of_mem hnd h2
        rw [he, hn] at h3
        exact h3
      rcases hv : kv.2 with _ | v
      · have he : kv.1 ≠ k := fun he => hfact he hv
        simp [hv, he]
      · simp [hv]

/-- An uneventful iteration (refresh returned `False`, sleep elapsed) leaves
state and world alone, records the refresh call and the sleep, and continues. -/
theorem checkerRun_false_elapse (rest : List (RefreshOutcome × SleepSignal))
    (s : ClientState) (w : World) :
    checkerRun ((RefreshOutcome.ret false, SleepSignal.elapse) :: rest) s w
      = { state := (checkerRun rest s w).state
        , world := (checkerRun rest s w).world
        , events := Event.refreshCall :: Event.sleep30 :: (checkerRun rest s w).events
        , status := (checkerRun rest s w).status } := rfl

/-- Counting step: a refresh-call event adds one. -/
theorem refreshCalls_cons_refresh (evs : List Event) :
    refreshCalls (Event.refreshCall :: evs) = refreshCalls evs + 1 := rfl

/-- Counting step: a sleep event adds nothing. -/
theorem refreshCalls_cons_sleep (evs : List Event) :
    refreshCalls (Event.sleep30 :: evs) = refreshCalls evs := rfl

/-- Counting step: a refresh-call event is not a rotation. -/
theorem rotations_cons_refresh (evs : List Event) :
    rotations (Event.refreshCall :: evs) = rotations evs := rfl

/-- Counting step: a sleep event is not a rotation. -/
theorem rotations_cons_sleep (evs : List Event) :
    rotations (Event.sleep30 :: evs) = rotations evs := rfl

/-- Teardown completes whenever the task-group await does not raise (no
failed child and no propagating scope exception) and the client owns a
session: cancellation is signalled and the current session is closed. -/
theorem clientAexit_closes (sup : RunStatus) (e : Bool)
    (hng : taskGroupRaises sup e = false) (s : ClientState) (i : Nat)
    (hs : s.curSession = some i) (w : World) :
    clientAexit sup e s w
      = { cancelSignalled := true
        , world := { w with closedSessions := i :: w.closedSessions }
        , raised := none, suppresses := false } := by
  simp [clientAexit, hng, hs]

/-- Running `n` uneventful cycles (refresh returns `False`, sleep elapses)
before the rest of the schedule leaves state and world untouched, adds `n`
refresh calls and no rotation, and does not change how the run ends. -/
theorem checkerRun_replicate_false (n : Nat)
    (rest : List (RefreshOutcome × SleepSignal)) (s : ClientState) (w : World) :
    (checkerRun (List.replicate n (RefreshOutcome.ret false, SleepSignal.elapse)
        ++ rest) s w).status = (checkerRun rest s w).status ∧
    (checkerRun (List.replicate n (RefreshOutcome.ret false, SleepSignal.elapse)
        ++ rest) s w).state = (checkerRun rest s w).state ∧
    (checkerRun (List.replicate n (RefreshOutcome.ret false, SleepSignal.elapse)
        ++ rest) s w).world = (checkerRun rest s w).world ∧
    refreshCalls (checkerRun (List.replicate n
        (RefreshOutcome.ret false, SleepSignal.elapse) ++ rest) s w).events
      = n + refreshCalls (checkerRun rest s w).events ∧
    rotations (checkerRun (List.replicate n
        (RefreshOutcome.ret false, SleepSignal.elapse) ++ rest) s w).events
      = rotations (checkerRun rest s w).events := by
  induction n with
  | zero => simp
  | succ n ih =>
    obtain ⟨h1, h2, h3, h4, h5⟩ := ih
    rw [List.replicate_succ, List.cons_append]
    simp only [checkerRun_false_elapse, refreshCalls_cons_refresh,
      refreshCalls_cons_sleep, rotations_cons_refresh, rotations_cons_sleep]
    exact ⟨h1, h2, h3, by omega, by omega⟩

/-! Claim theorems. -/

/-- C1: on a client built with `use_session=True`, the first `True` outcome of
`update_tokens()` does not replace the session: the checker body raises
`AttributeError` (because `__init__` never assigns `self.use_session`), the
task dies, and `self._session` is unchanged with no rotation event. -/
theorem C1_true_outcome_raises_attributeError :
    clientInit 10 true World.start
      = (Except.ok { timeout := 10, curSession := some 1, useSessionAttr := none },
          ⟨1, 1, 1, []⟩) ∧
    checkerRun [(RefreshOutcome.ret true, SleepSignal.elapse)]
        { timeout := 10, curSession := some 1, useSessionAttr := none } ⟨1, 1, 1, []⟩
      = { state := { timeout := 10, curSession := some 1, useSessionAttr := none }
        , world := ⟨1, 1, 1, []⟩
        , events := [Event.refreshCall]
        , status := RunStatus.errored PyErr.attributeError } := by
  constructor
  · rfl
  · rfl

/-- C2 counterexample: with `update_tokens()` raising on cycle 1 and a second
cycle available in the schedule, the loop terminates with the exception
escaping the coroutine, and only one refresh call was ever made - no attempt
happens on cycle 2. -/
theorem C2_counterexample :
    (checkerRun [(RefreshOutcome.raise, SleepSignal.elapse),
        (RefreshOutcome.ret false, SleepSignal.elapse)]
        { timeout := 10, curSession := some 1, useSessionAttr := none }
        ⟨1, 1, 1, []⟩).status = RunStatus.errored PyErr.tokensError ∧
    refreshCalls (checkerRun [(RefreshOutcome.raise, SleepSignal.elapse),
        (RefreshOutcome.ret false, SleepSignal.elapse)]
        { timeout := 10, curSession := some 1, useSessionAttr := none }
        ⟨1, 1, 1, []⟩).events = 1 := by
  constructor
  · rfl
  · rfl

/-- C2 (amended): if `update_tokens()` raises on cycle N (after N-1 uneventful
cycles), the exception propagates out of the checker coroutine, the loop
terminates with exactly the N refresh calls already made - no refresh attempt
occurs on cycle N+1 or later - and the task group surfaces the failure at
scope exit. -/
theorem C2_raise_terminates_loop (n : Nat) (sig : SleepSignal)
    (rest : List (RefreshOutcome × SleepSignal)) (s : ClientState) (w : World) :
    (checkerRun (List.replicate n (RefreshOutcome.ret false, SleepSignal.elapse)
        ++ (RefreshOutcome.raise, sig) :: rest) s w).status
      = RunStatus.errored PyErr.tokensError ∧
    refreshCalls (checkerRun (List.replicate n
        (RefreshOutcome.ret false, SleepSignal.elapse)
        ++ (RefreshOutcome.raise, sig) :: rest) s w).events = n + 1 ∧
    (∀ e : Bool, taskGroupRaises (checkerRun (List.replicate n
        (RefreshOutcome.ret false, SleepSignal.elapse)
        ++ (RefreshOutcome.raise, sig) :: rest) s w).status e = true) := by
  obtain ⟨h1, _, _, h4, _⟩ := checkerRun_replicate_false n
    ((RefreshOutcome.raise, sig) :: rest) s w
  have hbase : checkerRun ((RefreshOutcome.raise, sig) :: rest) s w
      = ⟨s, w, [Event.refreshCall], RunStatus.errored PyErr.tokensError⟩ := rfl
  rw [hbase] at h1 h4
  refine ⟨h1, ?_, by intro e; rw [h1]; rfl⟩
  rw [h4]
  rfl

/-- C3 counterexample: the session close is skipped on error unwinds.  First:
the supervisor task itself failed, so `TaskGroup.__aexit__` raises an
exception group out of `Client.__aexit__` before line 60 runs.  Second: an
exception raised inside the scope is propagating while the supervisor was
merely cancelled - the task group wraps and raises it even though no child
failed, again skipping line 60.  In both cases the current session (id 1) is
never closed, refuting the claim that both teardown steps run on every
exit. -/
theorem C3_close_skipped_counterexample :
    clientAexit (RunStatus.errored PyErr.attributeError) false
        { timeout := 10, curSession := some 1, useSessionAttr := none }
        ⟨1, 1, 1, []⟩
      = { cancelSignalled := true, world := ⟨1, 1, 1, []⟩
        , raised := some PyErr.exceptionGroup, suppresses := false } ∧
    clientAexit RunStatus.cancelled true
        { timeout := 10, curSession := some 1, useSessionAttr := none }
        ⟨1, 1, 1, []⟩
      = { cancelSignalled := true, world := ⟨1, 1, 1, []⟩
        , raised := some PyErr.exceptionGroup, suppresses := false } :=
  ⟨rfl, rfl⟩

/-- C3 (amended): on every scope exit the supervisor is cancelled and the
task group awaited; the current session is closed only on a clean exit -
when no exception is propagating out of the scope body and the supervisor
task has not failed.  On any error unwind (a propagating scope-body
exception, a failed supervisor task, or both) the task-group await raises
and the session close on line 60 is skipped. -/
theorem C3_close_only_on_clean_exit (sup : RunStatus) (scopeErr : Bool)
    (s : ClientState) (w : World) :
    (clientAexit sup scopeErr s w).cancelSignalled = true ∧
    (taskGroupRaises sup scopeErr = true →
      clientAexit sup scopeErr s w
        = { cancelSignalled := true, world := w
          , raised := some PyErr.exceptionGroup, suppresses := false }) ∧
    (∀ i, taskGroupRaises sup scopeErr = false → s.curSession = some i →
      clientAexit sup scopeErr s w
        = { cancelSignalled := true
          , world := { w with closedSessions := i :: w.closedSessions }
          , raised := none, suppresses := false }) := by
  refine ⟨?_, ?_, ?_⟩
  · unfold clientAexit
    split
    · rfl
    · split <;> rfl
  · intro hg
    simp [clientAexit, hg]
  · intro i hg hs
    exact clientAexit_closes sup scopeErr hg s i hs w

/-- C3 witness: with the supervisor merely cancelled, a propagating scope
error makes the exit raise with session 1 left open, while a clean exit
closes session 1. -/
theorem C3_clean_exit_witness :
    (taskGroupRaises RunStatus.cancelled true = true ∧
     clientAexit RunStatus.cancelled true
        { timeout := 10, curSession := some 1, useSessionAttr := none }
        ⟨1, 1, 1, []⟩
       = { cancelSignalled := true, world := ⟨1, 1, 1, []⟩
         , raised := some PyErr.exceptionGroup, suppresses := false }) ∧
    (taskGroupRaises RunStatus.cancelled false = false ∧
     ClientState.curSession
        { timeout := 10, curSession := some 1, useSessionAttr := none } = some 1 ∧
     clientAexit RunStatus.cancelled false
        { timeout := 10, curSession := some 1, useSessionAttr := none }
        ⟨1, 1, 1, []⟩
       = { cancelSignalled := true, world := ⟨1, 1, 1, [1]⟩
         , raised := none, suppresses := false }) :=
  ⟨⟨rfl, (C3_close_only_on_clean_exit RunStatus.cancelled true
      { timeout := 10, curSession := some 1, useSessionAttr := none }
      ⟨1, 1, 1, []⟩).2.1 rfl⟩,
   ⟨rfl, rfl, (C3_close_only_on_clean_exit RunStatus.cancelled false
      { timeout := 10, curSession := some 1, useSessionAttr := none }
      ⟨1, 1, 1, []⟩).2.2 1 rfl rfl⟩⟩

/-- C4: for every timeout value at most 0, construction fails synchronously
with the configuration error and allocates nothing: the world is returned
exactly as it was - no session opened, no Tokens, no Stream. -/
theorem C4_nonpositive_timeout_rejected (t : ℚ) (ht : t ≤ 0)
    (use_session : Bool) (w : World) :
    clientInit t use_session w = (Except.error PyErr.timeoutError, w) := by
  unfold clientInit
  rw [if_pos ht]

/-- C4 witness: construction with timeout 0 fails and leaves the fresh world
untouched. -/
theorem C4_witness :
    ((0 : ℚ) ≤ 0) ∧
    clientInit 0 true World.start = (Except.error PyErr.timeoutError, World.start) :=
  ⟨le_refl 0, C4_nonpositive_timeout_rejected 0 (le_refl 0) true World.start⟩

/-- C5 counterexample: the very first iteration of the checker body performs
the refresh call before any sleep: its event trace is refresh-then-sleep, so
the body does not start with the 30-unit sleep. -/
theorem C5_body_order_counterexample :
    (checkerRun [(RefreshOutcome.ret false, SleepSignal.elapse)]
        { timeout := 10, curSession := some 1, useSessionAttr := none }
        ⟨1, 1, 1, []⟩).events = [Event.refreshCall, Event.sleep30] ∧
    (checkerRun [(RefreshOutcome.ret false, SleepSignal.elapse)]
        { timeout := 10, curSession := some 1, useSessionAttr := none }
        ⟨1, 1, 1, []⟩).events.head? ≠ some Event.sleep30 := by
  constructor
  · rfl
  · intro h
    cases h

/-- C5 (amended): the loop body calls the refresh check first and sleeps
afterwards - the first event of any iteration is the refresh call - and a
supervisor cancelled before its body ever runs has made zero refresh calls. -/
theorem C5_refresh_precedes_sleep (o : RefreshOutcome) (sig : SleepSignal)
    (rest : List (RefreshOutcome × SleepSignal)) (s : ClientState) (w : World) :
    (checkerRun ((o, sig) :: rest) s w).events.head? = some Event.refreshCall ∧
    (checkerRun [] s w).events = [] ∧
    refreshCalls (checkerRun [] s w).events = 0 := by
  refine ⟨?_, rfl, rfl⟩
  cases o with
  | raise => rfl
  | ret b =>
    cases b with
    | false => cases sig <;> rfl
    | true =>
      cases hs : s.useSessionAttr with
      | none => simp [checkerRun, hs]
      | some u => cases u <;> cases sig <;> simp [checkerRun, hs]

/-- C6: on the cycle where a rotation should occur (a `True` refresh outcome),
no session is closed - but none is published either, since the branch raises
`AttributeError`; the only explicit close is the one in `Client.__aexit__`,
and it targets the session that is current at shutdown. -/
theorem C6_no_close_on_rotation_cycle :
    (checkerRun [(RefreshOutcome.ret true, SleepSignal.elapse)]
        { timeout := 10, curSession := some 1, useSessionAttr := none }
        ⟨1, 1, 1, []⟩).world.closedSessions = [] ∧
    (checkerRun [(RefreshOutcome.ret true, SleepSignal.elapse)]
        { timeout := 10, curSession := some 1, useSessionAttr := none }
        ⟨1, 1, 1, []⟩).status = RunStatus.errored PyErr.attributeError ∧
    rotations (checkerRun [(RefreshOutcome.ret true, SleepSignal.elapse)]
        { timeout := 10, curSession := some 1, useSessionAttr := none }
        ⟨1, 1, 1, []⟩).events = 0 ∧
    (clientAexit RunStatus.cancelled false
        { timeout := 10, curSession := some 1, useSessionAttr := none }
        ⟨1, 1, 1, []⟩).world.closedSessions = [1] := by
  exact ⟨rfl, rfl, rfl, rfl⟩

/-- C7: if cancellation is delivered while the loop sleeps (after n+1
uneventful cycles whose refresh calls were already made), the loop stops as
cancelled with exactly those n+1 refresh calls, no rotation ever happened,
stopping this way is not an error for the task group, and the facade exit
then closes the current session without raising. -/
theorem C7_cancel_during_sleep (n : Nat) (s : ClientState) (w : World)
    (i : Nat) (hs : s.curSession = some i) :
    (checkerRun (List.replicate n (RefreshOutcome.ret false, SleepSignal.elapse)
        ++ [(RefreshOutcome.ret false, SleepSignal.cancel)]) s w).status
      = RunStatus.cancelled ∧
    refreshCalls (checkerRun (List.replicate n
        (RefreshOutcome.ret false, SleepSignal.elapse)
        ++ [(RefreshOutcome.ret false, SleepSignal.cancel)]) s w).events = n + 1 ∧
    rotations (checkerRun (List.replicate n
        (RefreshOutcome.ret false, SleepSignal.elapse)
        ++ [(RefreshOutcome.ret false, SleepSignal.cancel)]) s w).events = 0 ∧
    taskGroupRaises RunStatus.cancelled false = false ∧
    clientAexit RunStatus.cancelled false s w
      = { cancelSignalled := true
        , world := { w with closedSessions := i :: w.closedSessions }
        , raised := none, suppresses := false } := by
  obtain ⟨h1, _, _, h4, h5⟩ := checkerRun_replicate_false n
    [(RefreshOutcome.ret false, SleepSignal.cancel)] s w
  have hbase : checkerRun [(RefreshOutcome.ret false, SleepSignal.cancel)] s w
      = ⟨s, w, [Event.refreshCall], RunStatus.cancelled⟩ := rfl
  rw [hbase] at h1 h4 h5
  refine ⟨h1, ?_, ?_, rfl, clientAexit_closes RunStatus.cancelled false rfl s i hs w⟩
  · rw [h4]; rfl
  · rw [h5]; rfl

/-- C7 witness: one uneventful cycle, then cancellation during the second
sleep: two refresh calls, no rotation, cancelled exit, session closed. -/
theorem C7_witness :
    ClientState.curSession
        { timeout := 10, curSession := some 1, useSessionAttr := none } = some 1 ∧
    ((checkerRun (List.replicate 1 (RefreshOutcome.ret false, SleepSignal.elapse)
        ++ [(RefreshOutcome.ret false, SleepSignal.cancel)])
        { timeout := 10, curSession := some 1, useSessionAttr := none }
        ⟨1, 1, 1, []⟩).status = RunStatus.cancelled ∧
     refreshCalls (checkerRun (List.replicate 1
        (RefreshOutcome.ret false, SleepSignal.elapse)
        ++ [(RefreshOutcome.ret false, SleepSignal.cancel)])
        { timeout := 10, curSession := some 1, useSessionAttr := none }
        ⟨1, 1, 1, []⟩).events = 1 + 1 ∧
     rotations (checkerRun (List.replicate 1
        (RefreshOutcome.ret false, SleepSignal.elapse)
        ++ [(RefreshOutcome.ret false, SleepSignal.cancel)])
        { timeout := 10, curSession := some 1, useSessionAttr := none }
        ⟨1, 1, 1, []⟩).events = 0 ∧
     taskGroupRaises RunStatus.cancelled false = false ∧
     clientAexit RunStatus.cancelled false
        { timeout := 10, curSession := some 1, useSessionAttr := none }
        ⟨1, 1, 1, []⟩
      = { cancelSignalled := true, world := ⟨1, 1, 1, [1]⟩
        , raised := none, suppresses := false }) :=
  ⟨rfl, C7_cancel_during_sleep 1
    { timeout := 10, curSession := some 1, useSessionAttr := none }
    ⟨1, 1, 1, []⟩ 1 rfl⟩

/-- C8: `_params_parser` keeps exactly the key-value pairs of its input whose
value is not `None`, with those values unchanged, and it does so by mutating
the dict behind the given reference in place and returning that very
reference, so the caller's dict loses its `None`-valued entries. -/
theorem C8_params_removed_in_place {K V : Type} [DecidableEq K]
    (h : Nat → List (K × Option V)) (r : Nat)
    (hnd : ((h r).map Prod.fst).Nodup) :
    (paramsParserRef h r).2 = r ∧
    (paramsParserRef h r).1 r = (h r).filter fun kv => kv.2.isSome := by
  refine ⟨rfl, ?_⟩
  show Function.update h r (paramsParser (h r)) r = _
  rw [Function.update_same]
  unfold paramsParser
  rw [paramsLoop_eq_filter _ _ hnd]
  apply List.filter_congr
  intro kv hkv
  have hm : kv.1 ∈ (h r).map Prod.fst := List.mem_map_of_mem Prod.fst hkv
  rcases hv : kv.2 with _ | v
  · simp [hm, hv]
  · simp [hv]

/-- C8 witness: on the dict `[(0, some 1), (1, None), (2, some 5)]` behind
reference 0, the parser returns reference 0 and the heap cell now holds
exactly the entries with non-`None` values. -/
theorem C8_witness :
    (([((0 : Nat), some (1 : Nat)), (1, none), (2, some 5)].map Prod.fst).Nodup) ∧
    ((paramsParserRef
        (fun _ => [((0 : Nat), some (1 : Nat)), (1, none), (2, some 5)]) 0).2 = 0 ∧
     (paramsParserRef
        (fun _ => [((0 : Nat), some (1 : Nat)), (1, none), (2, some 5)]) 0).1 0
       = [((0 : Nat), some (1 : Nat)), (1, none), (2, some 5)].filter
           fun kv => kv.2.isSome) :=
  ⟨by decide,
    C8_params_removed_in_place
      (fun _ => [((0 : Nat), some (1 : Nat)), (1, none), (2, some 5)]) 0 (by decide)⟩

/-- C9: `_format_list` maps `None` to `None`, a list of strings to their
comma-separated join, and anything else (in particular a string) to itself. -/
theorem C9_format_list_cases :
    formatList FmtArg.pynone = FmtArg.pynone ∧
    (∀ xs : List String,
      formatList (FmtArg.pylist xs) = FmtArg.pystr (String.intercalate "," xs)) ∧
    (∀ s : String, formatList (FmtArg.pystr s) = FmtArg.pystr s) ∧
    (∀ t : Nat, formatList (FmtArg.pyother t) = FmtArg.pyother t) :=
  ⟨rfl, fun _ => rfl, fun _ => rfl, fun _ => rfl⟩

/-- C10: `_time_convert` returns `None` and non-datetime arguments unchanged
whatever the requested format, and returns a datetime unchanged whenever the
format string is none of the four recognized values. -/
theorem C10_time_convert_passthrough :
    (∀ form : String, timeConvert TimeArg.pynone form = TimeArg.pynone) ∧
    (∀ (s form : String), timeConvert (TimeArg.pystr s) form = TimeArg.pystr s) ∧
    (∀ (n : Int) (form : String),
      timeConvert (TimeArg.pyint n) form = TimeArg.pyint n) ∧
    (∀ (d : PyDatetime) (form : String), form ≠ "8601" → form ≠ "epoch" →
      form ≠ "epoch_ms" → form ≠ "YYYY-MM-DD" →
      timeConvert (TimeArg.pydt d) form = TimeArg.pydt d) := by
  refine ⟨fun _ => rfl, fun _ _ => rfl, fun _ _ => rfl, ?_⟩
  intro d form h1 h2 h3 h4
  simp [timeConvert, h1, h2, h3, h4]

/-- C10 witness: a datetime with the unrecognized format string "iso" passes
through unchanged. -/
theorem C10_witness :
    (("iso" : String) ≠ "8601" ∧ ("iso" : String) ≠ "epoch" ∧
     ("iso" : String) ≠ "epoch_ms" ∧ ("iso" : String) ≠ "YYYY-MM-DD") ∧
    timeConvert (TimeArg.pydt ⟨"x", 0, 0, "y"⟩) "iso" = TimeArg.pydt ⟨"x", 0, 0, "y"⟩ :=
  ⟨⟨by decide, by decide, by decide, by decide⟩,
    C10_time_convert_passthrough.2.2.2 ⟨"x", 0, 0, "y"⟩ "iso"
      (by decide) (by decide) (by decide) (by decide)⟩

end AsyncSchwab
